import Mathlib

set_option linter.unusedVariables false
set_option maxRecDepth 8192

/-!
Shallow embedding of the AgentFlow repository (the Express backend
`server.js` and the browser agent script) together with proofs about the
behaviour its specification describes.

Modelling conventions, used consistently below:
* JavaScript strings are Lean `String`s; `substring`/`length` count
  characters.  Nullable/absent string fields are `Option String`; a
  `null`/absent array is `[]`.
* `Date.now()` readings are explicit `Nat` parameters (`now`, `time`).
* External HTTP calls (vendor LLM APIs, the Google Custom Search call, the
  Wikipedia lookup, the vm2 sandbox run, the tool fetches of the browser
  agent) are modelled as oracle parameters carrying the outcome of the call.
* `Math.random()` draws are explicit `Nat` parameters (`rand`).
-/

/-- JS `s.substring(0, n)`. -/
def jsSubstring (s : String) (n : Nat) : String := String.mk (s.data.take n)

/-- JS string truthiness of `a || d`: `d` when `a` is the empty string. -/
def jsOr (a d : String) : String := if a = "" then d else a

/-- JS `o || d` for a nullable string. -/
def jsOrOpt (o : Option String) (d : String) : String :=
  match o with
  | some s => jsOr s d
  | none => d

def containsSubAux (pat : List Char) : List Char → Bool
  | [] => pat.isEmpty
  | c :: rest => pat.isPrefixOf (c :: rest) || containsSubAux pat rest

/-- JS `s.includes(pat)`. -/
def jsIncludes (s pat : String) : Bool := containsSubAux pat.data s.data

def jsonEscapeChar (c : Char) : List Char :=
  if c = '"' then ['\\', '"']
  else if c = '\\' then ['\\', '\\']
  else if c = '\n' then ['\\', 'n']
  else if c = '\r' then ['\\', 'r']
  else if c = '\t' then ['\\', 't']
  else [c]

/-- A JSON string literal as `JSON.stringify` produces it (the inputs that
arise in this codebase need only the common escapes). -/
def jsonStr (s : String) : String :=
  "\"" ++ String.mk ((s.data.map jsonEscapeChar).flatten) ++ "\""

def hexDigit (n : Nat) : Char :=
  if n < 10 then Char.ofNat ('0'.toNat + n) else Char.ofNat ('A'.toNat + (n - 10))

def percentByte (b : Nat) : List Char := ['%', hexDigit (b / 16), hexDigit (b % 16)]

def utf8Bytes (c : Char) : List Nat :=
  let n := c.toNat
  if n < 0x80 then [n]
  else if n < 0x800 then [0xC0 + n / 64, 0x80 + n % 64]
  else if n < 0x10000 then [0xE0 + n / 4096, 0x80 + (n / 64) % 64, 0x80 + n % 64]
  else [0xF0 + n / 262144, 0x80 + (n / 4096) % 64, 0x80 + (n / 64) % 64, 0x80 + n % 64]

def uriUnreserved (c : Char) : Bool :=
  c.isAlphanum || c = '-' || c = '_' || c = '.' || c = '!' || c = '~' ||
    c = '*' || c = '\'' || c = '(' || c = ')'

/-- JS `encodeURIComponent`. -/
def encodeURIComponent (s : String) : String :=
  String.mk ((s.data.map (fun c =>
    if uriUnreserved c then [c] else ((utf8Bytes c).map percentByte).flatten)).flatten)

def isJsWhitespace (c : Char) : Bool :=
  c = ' ' || c = '\t' || c = '\n' || c = '\r' || c = '\x0b' || c = '\x0c'

def replaceWsRuns : List Char → List Char
  | [] => []
  | c :: rest =>
    if isJsWhitespace c then '_' :: replaceWsRuns (rest.dropWhile isJsWhitespace)
    else c :: replaceWsRuns rest
termination_by l => l.length
decreasing_by
  · simp only [List.length_cons]
    exact Nat.lt_succ_of_le (List.dropWhile_sublist _).length_le
  · simp

/-- JS `query.replace(/\s+/g, '_')`. -/
def jsReplaceWsUnderscore (s : String) : String := String.mk (replaceWsRuns s.data)

/-- JS `s.toLowerCase()`, character-wise (all the strings compared here are
ASCII). -/
def jsToLower (s : String) : String := String.mk (s.data.map Char.toLower)

/-- JS `s.toUpperCase()`, character-wise. -/
def jsToUpper (s : String) : String := String.mk (s.data.map Char.toUpper)

/-- JS `s.trim()`. -/
def jsTrim (s : String) : String :=
  String.mk (((s.data.dropWhile isJsWhitespace).reverse.dropWhile isJsWhitespace).reverse)

/-- JS `s.split(' ')`: single-space separator, empty fields preserved. -/
def splitOnSpace : List Char → List (List Char)
  | [] => [[]]
  | c :: rest =>
    if c = ' ' then [] :: splitOnSpace rest
    else match splitOnSpace rest with
      | g :: gs => (c :: g) :: gs
      | [] => [[c]]

def jsSplitSpace (s : String) : List String := (splitOnSpace s.data).map String.mk

/-- JS `parts.join(' ')`. -/
def joinSpace : List String → String
  | [] => ""
  | w :: rest => rest.foldl (fun acc x => acc ++ " " ++ x) w

/-! ## Data model -/

structure ToolFunction where
  name : String
  arguments : String
deriving DecidableEq

structure ToolCall where
  id : String
  callType : String := "function"
  function : ToolFunction
deriving DecidableEq

/-- One conversation entry / outbound message (role `user`, `assistant` or
`tool`); `tool_calls` is `[]` when the JS field is absent or `null`. -/
structure ChatMessage where
  role : String
  content : String
  tool_calls : List ToolCall := []
  tool_call_id : Option String := none
deriving DecidableEq

/-- The normalized provider-gateway shape `{content, tool_calls}`. -/
structure LLMResponse where
  content : String
  tool_calls : List ToolCall := []
deriving DecidableEq

/-! ## Server constants (server.js) -/

def MAX_CACHE_SIZE : Nat := 100
def CACHE_TTL : Nat := 5 * 60 * 1000
def MAX_RESULTS : Nat := 10
def MAX_QUERY_LENGTH : Nat := 200

/-! ## POST /api/llm and the server-side mock responder -/

/-- Regex-like capture for the patterns `/xyz (.+)/i` used by the search-term
extractors: leftmost occurrence of the literal `pat` followed by at least one
non-line-terminator character; the capture is greedy up to the end of the
line.  Both call sites pass an already-lowercased string, so the
case-insensitivity flag is immaterial. -/
def captureAfter (pat : List Char) : List Char → Option (List Char)
  | [] => none
  | c :: rest =>
    if pat.isPrefixOf (c :: rest) then
      let cap := ((c :: rest).drop pat.length).takeWhile (fun ch => ch ≠ '\n' && ch ≠ '\r')
      if cap.isEmpty then captureAfter pat rest else some cap
    else captureAfter pat rest

/-- `extractSearchTermFromInput` from server.js. -/
def extractSearchTermFromInput (input : String) : String :=
  let caps := ["search for ", "find ", "look up ", "google ", "about "]
  match caps.findSome? (fun p => captureAfter p.data input.data) with
  | some cap => jsSubstring (jsTrim (String.mk cap)) 100
  | none =>
    let stop := ["search", "find", "look", "google", "about"]
    let words := (jsSplitSpace input).filter (fun w => 3 < w.length && !(stop.contains (jsToLower w)))
    jsOr (joinSpace (words.take 3)) "information"

structure MockMessage where
  role : String := "assistant"
  content : String
  tool_calls : List ToolCall := []
deriving DecidableEq

structure MockChoice where
  message : MockMessage
deriving DecidableEq

/-- The vendor-native `{choices:[{message}]}` wrapper the mock uses. -/
structure MockResponse where
  choices : List MockChoice
deriving DecidableEq

def demoToolCall (time : Nat) (name args : String) : ToolCall :=
  { id := "call_demo_" ++ toString time, function := { name := name, arguments := args } }

def demoCodeSnippet : String :=
  "console.log(\x27AgentFlow Demo - Code Execution\x27); const data = demoFunctions.generateRandomData(5); console.log(\x27Random data:\x27, data); const sum = data.reduce((a, b) => a + b, 0); console.log(\x27Sum:\x27, sum); return \x7b data, sum, average: sum / data.length \x7d;"

/-- `getMockResponse` from server.js; `time` models the `Date.now()` reading
used for the generated tool-call ids. -/
def getMockResponse (provider model : Option String) (messages : List ChatMessage)
    (time : Nat) : MockResponse :=
  let userInput := match messages.getLast? with
    | some m => jsSubstring (jsToLower m.content) 500
    | none => ""
  let content := "Hello! I\x27m a " ++ jsOrOpt (provider.map jsToUpper) "DEMO" ++ " " ++
    jsOrOpt model "model" ++ " response in demo mode. "
  if jsIncludes userInput "search" || jsIncludes userInput "find" || jsIncludes userInput "google" then
    let searchTerm := jsOr (extractSearchTermFromInput userInput) "information"
    { choices := [{ message :=
        { content := content ++ "I\x27ll search for \"" ++ searchTerm ++ "\" using the available search tools.",
          tool_calls := [demoToolCall time "google_search"
            ("\x7b\"query\":" ++ jsonStr searchTerm ++ ",\"num_results\":5\x7d")] } }] }
  else if jsIncludes userInput "code" || jsIncludes userInput "javascript" || jsIncludes userInput "python" then
    { choices := [{ message :=
        { content := content ++ "I\x27ll execute some code to help with that.",
          tool_calls := [demoToolCall time "execute_javascript"
            ("\x7b\"code\":" ++ jsonStr demoCodeSnippet ++ "\x7d")] } }] }
  else if jsIncludes userInput "analyze" || jsIncludes userInput "summarize" || jsIncludes userInput "workflow" then
    { choices := [{ message :=
        { content := content ++ "I\x27ll process that using an AI workflow.",
          tool_calls := [demoToolCall time "ai_pipe"
            ("\x7b\"workflow\":\"summarize\",\"data\":" ++ jsonStr (jsSubstring userInput 500) ++ "\x7d")] } }] }
  else
    { choices := [{ message :=
        { content := jsSubstring (content ++ "I can help with web searches, code execution, and AI workflows. Add your API keys for full functionality!") 2000 } }] }

/-- The demo-mode credential test of `/api/llm`:
`!apiKey || apiKey.trim() === '' || apiKey === 'undefined' || apiKey === 'null'`. -/
def demoModeKey : Option String → Bool
  | none => true
  | some k => k = "" || jsTrim k = "" || k = "undefined" || k = "null"

def supportedProvider (p : String) : Bool :=
  p = "openai" || p = "anthropic" || p = "google" || p = "aipipe"

/-- The conversation-length limit of `/api/llm`:
`messages = [...messages.slice(0, 2), ...messages.slice(-48)]` when
`messages.length > 50`. -/
def trimLlmMessages (msgs : List ChatMessage) : List ChatMessage :=
  if 50 < msgs.length then msgs.take 2 ++ msgs.drop (msgs.length - 48) else msgs

/-- The per-message truncation of `/api/llm`: `content.substring(0, 8000)`. -/
def truncateLlmMessages (msgs : List ChatMessage) : List ChatMessage :=
  msgs.map (fun m => { m with content := jsSubstring m.content 8000 })

inductive LlmHttpResult where
  | badRequest (error : String)
  | okLive (r : LLMResponse)
  | okMock (m : MockResponse)
deriving DecidableEq

def llmStatus : LlmHttpResult → Nat
  | .badRequest _ => 400
  | .okLive _ => 200
  | .okMock _ => 200

/-- The `POST /api/llm` handler (server.js).  `live` is the oracle for the
outcome of the selected vendor call: `some r` a normalized success, `none` a
throw (bad credential shape, network error, non-2xx, malformed payload),
which the handler catches and degrades to the mock responder. -/
def apiLlm (provider model : Option String) (messages : Option (List ChatMessage))
    (apiKey : Option String) (live : Option LLMResponse) (time : Nat) : LlmHttpResult :=
  match provider, model, messages with
  | some p, some md, some msgs0 =>
    if p = "" || md = "" then .badRequest "Missing required parameters"
    else
      let msgs := truncateLlmMessages (trimLlmMessages msgs0)
      if demoModeKey apiKey then .okMock (getMockResponse (some p) (some md) msgs time)
      else if supportedProvider p then
        match live with
        | some r => .okLive r
        | none => .okMock (getMockResponse (some p) (some md) msgs time)
      else .badRequest "Unsupported provider"
  | _, _, _ => .badRequest "Missing required parameters"

/-- The body of a mock response carries a non-null content or a non-empty
tool-call list. -/
def mockBodyOk (m : MockResponse) : Prop :=
  ∃ c ∈ m.choices, c.message.content ≠ "" ∨ c.message.tool_calls ≠ []

/-! ## POST /api/search: data, fallback knowledge base, cache -/

structure SearchResult where
  title : String
  link : String
  snippet : String
  displayLink : String
deriving DecidableEq

/-- The SearchResponse body shape; `cached`/`note`/`searchTime` are absent
(`false`/`none`/`0`) unless set. -/
structure SearchData where
  query : String
  results : List SearchResult
  source : String
  totalResults : Nat
  searchTime : Nat := 0
  timestamp : Nat
  cached : Bool := false
  note : Option String := none
deriving DecidableEq

/-- `extractDomain` from server.js (`new URL(url).hostname`), modelled as the
text between the scheme separator and the next delimiter; a URL without a
scheme separator is one the constructor rejects, yielding "unknown". -/
def extractDomain (url : String) : String :=
  match url.splitOn "://" with
  | _ :: rest :: _ => String.mk (rest.data.takeWhile (fun c => c ≠ '/' && c ≠ ':' && c ≠ '?' && c ≠ '#'))
  | _ => "unknown"

/-- A raw item of a Google Custom Search response. -/
structure RawItem where
  title : Option String := none
  link : Option String := none
  snippet : Option String := none
  displayLink : Option String := none
deriving DecidableEq

/-- The per-item normalization inside `performGoogleSearch` (server.js). -/
def googleItemToResult (item : RawItem) : SearchResult :=
  { title := jsSubstring (jsOrOpt item.title "No title") 150,
    link := jsOrOpt item.link "#",
    snippet := jsSubstring (jsOrOpt item.snippet "No description available") 300,
    displayLink := jsOrOpt item.displayLink (extractDomain (jsOrOpt item.link "https://example.com")) }

/-- Result assembly of `performGoogleSearch` (server.js).  The HTTP exchange
itself is external: `items` is the non-empty `items` array of a successful
response, `totalRaw` the parsed `searchInformation.totalResults`, and
`searchTime` its `searchTime`. -/
def performGoogleSearch (items : List RawItem) (totalRaw : Option Nat) (searchTime : Nat)
    (query : String) (numResults : Nat) (now : Nat) : SearchData :=
  let results := items.map googleItemToResult
  { query := query,
    results := results.take numResults,
    source := "Google Custom Search API",
    totalResults := min (totalRaw.getD results.length) 1000000,
    searchTime := searchTime,
    timestamp := now }

/-- The hand-authored knowledge base of `getKnowledgeBaseResults` (server.js),
in object-literal insertion order. -/
def knowledgeBase : List (String × List SearchResult) := [
  ("openai", [
    { title := "OpenAI - Artificial Intelligence Research",
      link := "https://openai.com",
      snippet := "OpenAI is an AI research and deployment company dedicated to ensuring artificial general intelligence benefits all humanity.",
      displayLink := "openai.com" },
    { title := "OpenAI API Platform",
      link := "https://platform.openai.com",
      snippet := "Build with OpenAI\x27s powerful AI models including GPT-4, DALL·E, and Whisper through their developer platform.",
      displayLink := "platform.openai.com" },
    { title := "ChatGPT by OpenAI",
      link := "https://chat.openai.com",
      snippet := "ChatGPT is a conversational AI assistant that can help with writing, analysis, coding, math, and creative tasks.",
      displayLink := "chat.openai.com" }]),
  ("ibm", [
    { title := "IBM - Leading Enterprise AI and Cloud Solutions",
      link := "https://www.ibm.com",
      snippet := "IBM provides enterprise AI, cloud computing, and data solutions including Watson AI, Red Hat, and hybrid cloud technologies.",
      displayLink := "www.ibm.com" },
    { title := "IBM Watson AI Platform",
      link := "https://www.ibm.com/watson",
      snippet := "IBM Watson delivers AI solutions for business with machine learning, natural language processing, and automated insights.",
      displayLink := "www.ibm.com" },
    { title := "IBM Cloud - Hybrid Multi-Cloud Platform",
      link := "https://www.ibm.com/cloud",
      snippet := "Enterprise-grade cloud platform with AI services, Red Hat OpenShift, and industry-specific solutions for digital transformation.",
      displayLink := "www.ibm.com" }]),
  ("google", [
    { title := "Google - Search, AI, and Cloud Technologies",
      link := "https://www.google.com",
      snippet := "Google\x27s mission is to organize the world\x27s information and make it universally accessible through search, AI, and cloud services.",
      displayLink := "www.google.com" },
    { title := "Google Cloud Platform",
      link := "https://cloud.google.com",
      snippet := "Google Cloud provides scalable cloud computing services with AI/ML capabilities, data analytics, and enterprise infrastructure.",
      displayLink := "cloud.google.com" },
    { title := "Google AI and Research",
      link := "https://ai.google",
      snippet := "Google AI advances the state of artificial intelligence through research in machine learning, computer vision, and natural language processing.",
      displayLink := "ai.google" }]),
  ("microsoft", [
    { title := "Microsoft - Cloud, Productivity and AI Solutions",
      link := "https://www.microsoft.com",
      snippet := "Microsoft empowers organizations with cloud computing, productivity tools, AI services, and enterprise software solutions.",
      displayLink := "www.microsoft.com" },
    { title := "Microsoft Azure Cloud Platform",
      link := "https://azure.microsoft.com",
      snippet := "Azure provides comprehensive cloud services including AI, machine learning, databases, and enterprise applications.",
      displayLink := "azure.microsoft.com" },
    { title := "Microsoft 365 Productivity Suite",
      link := "https://www.microsoft.com/microsoft-365",
      snippet := "Microsoft 365 combines Office applications, cloud services, and AI-powered productivity tools for modern work.",
      displayLink := "www.microsoft.com" }]),
  ("artificial intelligence", [
    { title := "What is Artificial Intelligence? - Comprehensive Guide",
      link := "https://www.ibm.com/topics/artificial-intelligence",
      snippet := "Artificial intelligence enables computers and machines to mimic human problem-solving and decision-making capabilities through advanced algorithms.",
      displayLink := "www.ibm.com" },
    { title := "AI Research and News - MIT Technology Review",
      link := "https://www.technologyreview.com/topic/artificial-intelligence/",
      snippet := "Latest breakthroughs in AI research, machine learning applications, and the impact of artificial intelligence on society and industry.",
      displayLink := "www.technologyreview.com" },
    { title := "Stanford AI Research Institute",
      link := "https://hai.stanford.edu",
      snippet := "Stanford\x27s Human-Centered AI Institute advances AI research, education, and policy to improve human welfare and society.",
      displayLink := "hai.stanford.edu" }]),
  ("machine learning", [
    { title := "Machine Learning Course - Stanford University",
      link := "https://www.coursera.org/learn/machine-learning",
      snippet := "Learn machine learning fundamentals from Andrew Ng covering algorithms, neural networks, and practical implementation techniques.",
      displayLink := "www.coursera.org" },
    { title := "Machine Learning Documentation - Google",
      link := "https://developers.google.com/machine-learning",
      snippet := "Google\x27s comprehensive machine learning guides, tutorials, and tools including TensorFlow and cloud ML services.",
      displayLink := "developers.google.com" },
    { title := "Scikit-learn Machine Learning Library",
      link := "https://scikit-learn.org",
      snippet := "Open-source machine learning library for Python featuring classification, regression, clustering, and dimensionality reduction algorithms.",
      displayLink := "scikit-learn.org" }]),
  ("python", [
    { title := "Python.org - Official Python Programming Language",
      link := "https://www.python.org",
      snippet := "Python is a powerful, versatile programming language perfect for beginners and professionals in web development, data science, and AI.",
      displayLink := "www.python.org" },
    { title := "Python Tutorial - Official Documentation",
      link := "https://docs.python.org/3/tutorial/",
      snippet := "Official Python tutorial covering language basics, data structures, modules, classes, and standard library functionality.",
      displayLink := "docs.python.org" },
    { title := "Real Python - Python Programming Tutorials",
      link := "https://realpython.com",
      snippet := "In-depth Python tutorials, courses, and articles covering web development, data science, machine learning, and best practices.",
      displayLink := "realpython.com" }]),
  ("javascript", [
    { title := "JavaScript - MDN Web Docs",
      link := "https://developer.mozilla.org/en-US/docs/Web/JavaScript",
      snippet := "Comprehensive JavaScript documentation covering language fundamentals, APIs, and modern web development techniques.",
      displayLink := "developer.mozilla.org" },
    { title := "Node.js - JavaScript Runtime",
      link := "https://nodejs.org",
      snippet := "Node.js enables server-side JavaScript development with a rich ecosystem of packages for building scalable applications.",
      displayLink := "nodejs.org" },
    { title := "JavaScript.info - Modern JavaScript Tutorial",
      link := "https://javascript.info",
      snippet := "Modern JavaScript tutorial covering ES6+, async programming, DOM manipulation, and advanced programming concepts.",
      displayLink := "javascript.info" }])]

/-- `generateContextualResults` from server.js. -/
def generateContextualResults (query : String) (numResults : Nat) : List SearchResult :=
  let queryLower := jsToLower query
  let results : List SearchResult :=
    [{ title := query ++ " - Wikipedia Encyclopedia",
       link := "https://en.wikipedia.org/wiki/" ++ encodeURIComponent (jsReplaceWsUnderscore query),
       snippet := "Wikipedia article about " ++ query ++ ". Comprehensive encyclopedia entry with detailed information and reliable references.",
       displayLink := "en.wikipedia.org" }]
    ++ (if jsIncludes queryLower "code" || jsIncludes queryLower "programming" || jsIncludes queryLower "tutorial" then
      [{ title := query ++ " - Stack Overflow Programming Q&A",
         link := "https://stackoverflow.com/search?q=" ++ encodeURIComponent query,
         snippet := "Programming questions, solutions, and code examples related to " ++ query ++ " from the developer community.",
         displayLink := "stackoverflow.com" },
       { title := query ++ " - GitHub Code Repositories",
         link := "https://github.com/search?q=" ++ encodeURIComponent query,
         snippet := "Open source code repositories and projects related to " ++ query ++ ". Browse implementations and contribute to projects.",
         displayLink := "github.com" }] else [])
    ++ (if jsIncludes queryLower "news" || jsIncludes queryLower "latest" || jsIncludes queryLower "recent" then
      [{ title := "Latest News: " ++ query ++ " - Google News",
         link := "https://news.google.com/search?q=" ++ encodeURIComponent query,
         snippet := "Breaking news, recent developments, and current updates about " ++ query ++ " from trusted news sources worldwide.",
         displayLink := "news.google.com" }] else [])
    ++ (if jsIncludes queryLower "learn" || jsIncludes queryLower "course" || jsIncludes queryLower "tutorial" then
      [{ title := query ++ " - Online Courses and Learning",
         link := "https://www.coursera.org/search?query=" ++ encodeURIComponent query,
         snippet := "Online courses, tutorials, and educational content about " ++ query ++ " from top universities and institutions.",
         displayLink := "www.coursera.org" }] else [])
    ++ (if jsIncludes queryLower "video" || jsIncludes queryLower "how to" then
      [{ title := query ++ " - YouTube Videos and Tutorials",
         link := "https://www.youtube.com/results?search_query=" ++ encodeURIComponent query,
         snippet := "Educational videos, tutorials, and demonstrations about " ++ query ++ " from content creators and experts.",
         displayLink := "www.youtube.com" }] else [])
    ++ [{ title := query ++ " - Google Scholar Academic Papers",
          link := "https://scholar.google.com/scholar?q=" ++ encodeURIComponent query,
          snippet := "Scholarly articles, research papers, and academic studies about " ++ query ++ " from universities and research institutions.",
          displayLink := "scholar.google.com" },
        { title := query ++ " - Google Search Results",
          link := "https://www.google.com/search?q=" ++ encodeURIComponent query,
          snippet := "Comprehensive search results for " ++ query ++ " including websites, news, images, and related information.",
          displayLink := "www.google.com" }]
  results.take numResults

/-- `getKnowledgeBaseResults` from server.js: the first knowledge-base topic
(in insertion order) with `queryLower.includes(topic) || topic.includes(queryLower)`
wins; otherwise contextual results are generated. -/
def getKnowledgeBaseResults (query : String) (numResults : Nat) (now : Nat) : SearchData :=
  let queryLower := jsToLower query
  match knowledgeBase.find? (fun kv => jsIncludes queryLower kv.1 || jsIncludes kv.1 queryLower) with
  | some kv =>
    { query := query, results := kv.2.take numResults, source := "Enhanced Knowledge Base",
      totalResults := kv.2.length, timestamp := now }
  | none =>
    let contextualResults := generateContextualResults query numResults
    { query := query, results := contextualResults, source := "Contextual Search Results",
      totalResults := contextualResults.length, timestamp := now }

/-- `performFallbackSearch` from server.js; `wiki` is the oracle for the
external `tryWikipediaSearch` call (`none`: throw, null extract, or
disambiguation page). -/
def performFallbackSearch (wiki : Option SearchResult) (query : String) (numResults : Nat)
    (now : Nat) : SearchData :=
  match wiki with
  | some w =>
    let fallbackResults := getKnowledgeBaseResults query numResults now
    { fallbackResults with
      results := (w :: fallbackResults.results).take numResults,
      source := "Wikipedia + Knowledge Base" }
  | none => getKnowledgeBaseResults query numResults now

/-- One entry of the module-level `searchCache` `Map` (key insertion order is
the list order; a `Map`'s keys are unique). -/
structure CacheEntry where
  key : String
  timestamp : Nat
  data : SearchData
deriving DecidableEq

def insertByTimestamp (x : CacheEntry) : List CacheEntry → List CacheEntry
  | [] => [x]
  | y :: ys => if x.timestamp ≤ y.timestamp then x :: y :: ys else y :: insertByTimestamp x ys

/-- Stable ascending sort by timestamp, matching the JS
`sort(([,a],[,b]) => a.timestamp - b.timestamp)`. -/
def sortByTimestamp : List CacheEntry → List CacheEntry
  | [] => []
  | x :: xs => insertByTimestamp x (sortByTimestamp xs)

/-- `cleanCache` from server.js (and, with the frontend constants, the
identical `cleanSearchCache` of the agent script): delete entries with
`now - timestamp > ttl`, then if the count still exceeds `maxSize` delete the
oldest-by-timestamp entries (by key) down to the cap. -/
def cleanCacheWith (ttl maxSize now : Nat) (cache : List CacheEntry) : List CacheEntry :=
  let kept := cache.filter (fun e => decide (now - e.timestamp ≤ ttl))
  if maxSize < kept.length then
    let toRemove := (sortByTimestamp kept).take (kept.length - maxSize)
    kept.filter (fun e => !((toRemove.map CacheEntry.key).contains e.key))
  else kept

def cleanCache (now : Nat) (cache : List CacheEntry) : List CacheEntry :=
  cleanCacheWith CACHE_TTL MAX_CACHE_SIZE now cache

def cacheGet (cache : List CacheEntry) (k : String) : Option CacheEntry :=
  cache.find? (fun e => e.key == k)

/-- `Map.set`: replace in place if the key exists, else append. -/
def cacheSet (cache : List CacheEntry) (k : String) (ts : Nat) (d : SearchData) :
    List CacheEntry :=
  if cache.any (fun e => e.key == k) then
    cache.map (fun e => if e.key == k then { key := k, timestamp := ts, data := d } else e)
  else cache ++ [{ key := k, timestamp := ts, data := d }]

/-- `num_results = Math.min(Math.max(parseInt(num_results) || 5, 1), MAX_RESULTS)`;
`none` models an absent or unparsable field. -/
def clampNumResults (n : Option Int) : Nat := (min (max (n.getD 5) 1) 10).toNat

inductive SearchHttpResult where
  | badRequest (error : String)
  | ok (body : SearchData)
deriving DecidableEq

def searchStatus : SearchHttpResult → Nat
  | .badRequest _ => 400
  | .ok _ => 200

def respIsCachedTrue : SearchHttpResult → Bool
  | .ok b => b.cached
  | .badRequest _ => false

/-- The `POST /api/search` handler (server.js).  `google = some d` models a
present, length-valid credential pair whose live Custom Search call succeeded
with body `d` (a faithful instance has `d.cached = false`, since the live
body carries no `cached` field); `google = none` covers absent or incomplete
credentials and a failed live call, which fall through to
`performFallbackSearch`.  Returns the response and the updated cache. -/
def apiSearch (google : Option SearchData) (wiki : Option SearchResult) (now : Nat)
    (cache : List CacheEntry) (query : Option String) (numResults : Option Int) :
    SearchHttpResult × List CacheEntry :=
  match query with
  | none => (.badRequest "Valid query is required", cache)
  | some q0 =>
    if q0 = "" then (.badRequest "Valid query is required", cache)
    else
      let q := jsSubstring (jsTrim q0) MAX_QUERY_LENGTH
      let n := clampNumResults numResults
      let key := jsToLower q ++ "_" ++ toString n
      let cache1 := cleanCache now cache
      let hit := match cacheGet cache1 key with
        | some e => if now - e.timestamp < CACHE_TTL then some e else none
        | none => none
      match hit with
      | some e => (.ok { e.data with cached := true }, cache1)
      | none =>
        match google with
        | some g => (.ok g, cacheSet cache1 key now g)
        | none =>
          let fallbackResults := performFallbackSearch wiki q n now
          (.ok fallbackResults, cacheSet cache1 key now fallbackResults)

/-! ## POST /api/execute -/

inductive VmOutcome where
  | ok (value : Option String)
  | thrown (message : String)
deriving DecidableEq

structure ExecBody where
  success : Bool
  result : Option String
  logs : List String
  errors : List String
  error : Option String
  timestamp : Nat
deriving DecidableEq

inductive ExecHttpResult where
  | badRequest (error : String)
  | ok (body : ExecBody)
deriving DecidableEq

def execStatus : ExecHttpResult → Nat
  | .badRequest _ => 400
  | .ok _ => 200

def is2xx (n : Nat) : Bool := 200 ≤ n && n < 300

/-- The `POST /api/execute` handler (server.js).  `run` is the oracle for the
vm2 sandbox: applied to the (truncated) code it yields the captured console
logs, the captured console errors, and either the script value or the thrown
message (including the 8-second timeout error). -/
def apiExecute (run : String → List String × List String × VmOutcome) (now : Nat)
    (code : Option String) : ExecHttpResult :=
  match code with
  | none => .badRequest "Code is required"
  | some c =>
    if c = "" then .badRequest "Code is required"
    else
      let c2 := jsSubstring c 10000
      match run c2 with
      | (logs, errs, .ok v) =>
        .ok { success := true, result := v, logs := logs.take 50, errors := errs,
              error := none, timestamp := now }
      | (_, _, .thrown msg) =>
        .ok { success := false, result := none, logs := [], errors := [msg],
              error := some (jsSubstring msg 1000), timestamp := now }

/-! ## The browser agent script: memory manager, agent loop, mock responder -/

def maxConversationLength : Nat := 50

/-- `cleanConversationMemory` from the agent script: when the conversation
exceeds `maxConversationLength`, keep `slice(0, 1)` plus
`slice(-maxConversationLength + 1)`. -/
def cleanConversationMemory (conv : List ChatMessage) : List ChatMessage :=
  if maxConversationLength < conv.length then
    conv.take 1 ++ conv.drop (conv.length - (maxConversationLength - 1))
  else conv

/-! JS `JSON.parse`: a recursive-descent recognizer for the ECMA-404 grammar.
Only whether the parse succeeds matters to the code modelled here (the parsed
record is consumed by the tool implementations behind the `exec` oracle), so
the functions recognize the input and return the unconsumed rest. -/

def jsonWsChar (c : Char) : Bool := c = ' ' || c = '\t' || c = '\n' || c = '\r'

def skipJsonWs (s : List Char) : List Char := s.dropWhile jsonWsChar

def isHexDigit (c : Char) : Bool :=
  c.isDigit || ('a' ≤ c && c ≤ 'f') || ('A' ≤ c && c ≤ 'F')

/-- A JSON string body after the opening quote; yields the rest after the
closing quote. -/
def parseJsonStringBody : List Char → Option (List Char)
  | [] => none
  | c :: rest =>
    if c = '"' then some rest
    else if c = '\\' then
      match rest with
      | [] => none
      | e :: rest2 =>
        if e = '"' || e = '\\' || e = '/' || e = 'b' || e = 'f' || e = 'n' || e = 'r' || e = 't' then
          parseJsonStringBody rest2
        else if e = 'u' then
          match rest2 with
          | h1 :: h2 :: h3 :: h4 :: rest3 =>
            if isHexDigit h1 && isHexDigit h2 && isHexDigit h3 && isHexDigit h4 then
              parseJsonStringBody rest3
            else none
          | _ => none
        else none
    else if c.toNat < 0x20 then none
    else parseJsonStringBody rest

def parseJsonDigits : List Char → Option (List Char)
  | c :: rest => if c.isDigit then some (rest.dropWhile Char.isDigit) else none
  | [] => none

def parseJsonInt : List Char → Option (List Char)
  | c :: rest =>
    if c = '0' then some rest
    else if c.isDigit then some (rest.dropWhile Char.isDigit)
    else none
  | [] => none

def parseJsonFrac (s : List Char) : Option (List Char) :=
  match s with
  | '.' :: rest => parseJsonDigits rest
  | _ => some s

def parseJsonExp (s : List Char) : Option (List Char) :=
  match s with
  | c :: rest =>
    if c = 'e' || c = 'E' then
      match rest with
      | c2 :: rest2 => if c2 = '+' || c2 = '-' then parseJsonDigits rest2 else parseJsonDigits rest
      | [] => none
    else some s
  | [] => some s

/-- A JSON number: optional sign, integer part, optional fraction/exponent. -/
def parseJsonNumber (s : List Char) : Option (List Char) :=
  let s1 := match s with
    | '-' :: rest => rest
    | _ => s
  (parseJsonInt s1).bind (fun s2 => (parseJsonFrac s2).bind parseJsonExp)

mutual

/-- One JSON value (leading whitespace already consumed); yields the rest.
`fuel` bounds the recursion depth: `input.length + 1` always suffices, since
along any call chain each fueled call follows at least one freshly consumed
character, so running out of fuel can only reject inputs the grammar rejects
anyway. -/
def parseJsonValue : Nat → List Char → Option (List Char)
  | 0, _ => none
  | fuel + 1, s =>
    if ("true".data).isPrefixOf s then some (s.drop 4)
    else if ("false".data).isPrefixOf s then some (s.drop 5)
    else if ("null".data).isPrefixOf s then some (s.drop 4)
    else
      match s with
      | [] => none
      | c :: rest =>
        if c = '"' then parseJsonStringBody rest
        else if c = '\x7b' then parseJsonObjectBody fuel (skipJsonWs rest)
        else if c = '[' then parseJsonArrayBody fuel (skipJsonWs rest)
        else parseJsonNumber (c :: rest)

/-- Inside an object, after the opening brace and whitespace. -/
def parseJsonObjectBody : Nat → List Char → Option (List Char)
  | 0, _ => none
  | fuel + 1, s =>
    match s with
    | [] => none
    | c :: rest =>
      if c = '\x7d' then some rest
      else if c = '"' then
        match parseJsonStringBody rest with
        | none => none
        | some afterKey =>
          match skipJsonWs afterKey with
          | ':' :: afterColon =>
            match parseJsonValue fuel (skipJsonWs afterColon) with
            | none => none
            | some afterVal => parseJsonObjectTail fuel (skipJsonWs afterVal)
          | _ => none
      else none

/-- Inside an object, after a member: a comma and another member, or the
closing brace. -/
def parseJsonObjectTail : Nat → List Char → Option (List Char)
  | 0, _ => none
  | fuel + 1, s =>
    match s with
    | [] => none
    | c :: rest =>
      if c = '\x7d' then some rest
      else if c = ',' then
        match skipJsonWs rest with
        | '"' :: afterQuote =>
          match parseJsonStringBody afterQuote with
          | none => none
          | some afterKey =>
            match skipJsonWs afterKey with
            | ':' :: afterColon =>
              match parseJsonValue fuel (skipJsonWs afterColon) with
              | none => none
              | some afterVal => parseJsonObjectTail fuel (skipJsonWs afterVal)
            | _ => none
        | _ => none
      else none

/-- Inside an array, after the opening bracket and whitespace. -/
def parseJsonArrayBody : Nat → List Char → Option (List Char)
  | 0, _ => none
  | fuel + 1, s =>
    match s with
    | [] => none
    | c :: rest =>
      if c = ']' then some rest
      else
        match parseJsonValue fuel (c :: rest) with
        | none => none
        | some afterVal => parseJsonArrayTail fuel (skipJsonWs afterVal)

/-- Inside an array, after an element: a comma and another element, or the
closing bracket. -/
def parseJsonArrayTail : Nat → List Char → Option (List Char)
  | 0, _ => none
  | fuel + 1, s =>
    match s with
    | [] => none
    | c :: rest =>
      if c = ']' then some rest
      else if c = ',' then
        match parseJsonValue fuel (skipJsonWs rest) with
        | none => none
        | some afterVal => parseJsonArrayTail fuel (skipJsonWs afterVal)
      else none

end

/-- Whether JS `JSON.parse(s)` succeeds: one value surrounded by optional
whitespace, nothing left over. -/
def jsonParseable (s : String) : Bool :=
  match parseJsonValue (s.length + 1) (skipJsonWs s.data) with
  | some rest => (skipJsonWs rest).isEmpty
  | none => false

/-- `handleToolCall` from the agent script.
`const parsedArgs = JSON.parse(args)` runs OUTSIDE the try/catch, so an
`arguments` string that is not valid JSON makes the async function reject
(modelled `.error`), which rejects the whole `Promise.all` batch in
`agentLoop`.  With parseable arguments, the dispatched tool implementation
(`exec` oracle: `.ok` the `JSON.stringify`-serialized result, `.error` the
thrown message) always yields a tool-role entry carrying the originating
`tool_call_id` — on the success path and on the inner catch path alike. -/
def handleToolCall (exec : ToolCall → Except String String) (tc : ToolCall) :
    Except String ChatMessage :=
  if jsonParseable tc.function.arguments then
    match exec tc with
    | .ok s => .ok { role := "tool", content := s, tool_call_id := some tc.id }
    | .error msg =>
      .ok { role := "tool", content := "❌ " ++ tc.function.name ++ " failed: " ++ msg,
            tool_call_id := some tc.id }
  else .error "SyntaxError: Unexpected token in JSON"

/-- `Promise.all` over the batch's already-created promises: resolves to the
ordered result list, rejects if any member rejects. -/
def promiseAll : List (Except String ChatMessage) → Except String (List ChatMessage)
  | [] => .ok []
  | .ok m :: rest =>
    match promiseAll rest with
    | .ok ms => .ok (m :: ms)
    | .error e => .error e
  | .error e :: _ => .error e

/-- `agentLoop` from the agent script, driven by the finite trace `rs` of
successive `callLLM` outcomes.  A response carrying tool calls runs the batch
through `Promise.all`: if it resolves, the assistant entry and then the tool
results are appended in issue order and the loop continues; if it rejects
(some call had unparsable arguments), the catch around the loop aborts the
turn with nothing further appended.  The loop exits at the first response
without tool calls (a trace that ends while tool calls are still requested
models an interrupted session and simply stops). -/
def agentLoop (exec : ToolCall → Except String String) (conv : List ChatMessage) :
    List LLMResponse → List ChatMessage
  | [] => conv
  | r :: rs =>
    if r.tool_calls ≠ [] then
      match promiseAll (r.tool_calls.map (handleToolCall exec)) with
      | .ok toolResults =>
        agentLoop exec
          (conv ++ ({ role := "assistant", content := r.content, tool_calls := r.tool_calls } ::
            toolResults)) rs
      | .error _ => conv
    else conv ++ [{ role := "assistant", content := r.content }]

/-- `handleUserInput` followed by `agentLoop`: push the (2000-char-truncated)
user entry, then run the loop. -/
def runTurn (exec : ToolCall → Except String String) (conv : List ChatMessage)
    (userMsg : String) (rs : List LLMResponse) : List ChatMessage :=
  agentLoop exec (conv ++ [{ role := "user", content := jsSubstring userMsg 2000 }]) rs

/-- The operations that mutate the conversation: a completed user turn, or one
run of the periodic cleanup sweep. -/
inductive AgentOp where
  | turn (userMsg : String) (responses : List LLMResponse)
  | sweep

def applyOp (exec : ToolCall → Except String String) (conv : List ChatMessage) :
    AgentOp → List ChatMessage
  | .turn u rs => runTurn exec conv u rs
  | .sweep => cleanConversationMemory conv

def runOps (exec : ToolCall → Except String String) (conv : List ChatMessage)
    (ops : List AgentOp) : List ChatMessage :=
  ops.foldl (applyOp exec) conv

/-- JS `input.replace(/search|find|look up|about/gi, '')`: at each position the
first alternative that matches is removed, scanning left to right (the call
site passes a lowercased string). -/
def replaceAlts (alts : List (List Char)) (s : List Char) : List Char :=
  match s with
  | [] => []
  | c :: rest =>
    match alts.findSome? (fun a => if a.isPrefixOf (c :: rest) then some a.length else none) with
    | some n => replaceAlts alts (rest.drop (n - 1))
    | none => c :: replaceAlts alts rest
termination_by s.length
decreasing_by
  · simp only [List.length_cons]
    exact Nat.lt_succ_of_le (List.length_drop .. ▸ Nat.sub_le _ _)
  · simp

/-- `extractSearchTerm` from the agent script. -/
def extractSearchTerm (input : String) : String :=
  let caps := ["search for ", "find ", "look up ", "about "]
  match caps.findSome? (fun p => captureAfter p.data input.data) with
  | some cap => jsTrim (String.mk cap)
  | none =>
    jsOr (jsTrim (String.mk (replaceAlts ["search".data, "find".data, "look up".data, "about".data]
      input.data))) "information"

def interviewResponses : List String := [
  "What specific angle would you like to take with this topic?",
  "Who is your target audience for this content?",
  "What key message do you want readers to take away?",
  "Would you like me to research any specific aspects further?",
  "Should we start outlining the structure?"]

def frontendDemoCode : String :=
  "console.log(\x27Hello from AgentFlow demo!\x27); const result = Math.random() * 100; console.log(\x27Random number:\x27, Math.floor(result)); return Math.floor(result);"

/-- `getMockLLMResponse` from the agent script.  `time` models the
`Date.now()` reading used in tool-call ids; `rand` models the
`Math.random()` draw of the interview-questions branch
(`Math.floor(Math.random() * interviewResponses.length)` becomes
`rand % interviewResponses.length`). -/
def getMockLLMResponse (provider model : String) (conversation : List ChatMessage)
    (time rand : Nat) : LLMResponse :=
  let userInput := match conversation.getLast? with
    | some m => jsToLower m.content
    | none => ""
  let content0 := "Hello! I\x27m a " ++ jsToUpper provider ++ " " ++ model ++ " response in demo mode. "
  let conversationHistory := jsToLower (joinSpace (conversation.map ChatMessage.content))
  if jsIncludes userInput "interview" && jsIncludes userInput "blog" then
    { content := "Sure! What\x27s the topic for your blog post? I\x27ll help you gather information and structure your content." }
  else if jsIncludes userInput "ibm" && (jsIncludes conversationHistory "interview" || jsIncludes conversationHistory "blog") then
    { content := "Let me search for current IBM information to help with your blog post.",
      tool_calls := [demoToolCall time "google_search"
        "\x7b\"query\":\"IBM company recent developments AI cloud 2024 2025\",\"num_results\":5\x7d"] }
  else if (jsIncludes userInput "next" || jsIncludes userInput "continue") && jsIncludes conversationHistory "ibm" then
    { content := "Great! Based on my research, IBM is focusing heavily on AI and hybrid cloud solutions. What specific aspect would you like to highlight? For example:\n\n1. AI initiatives (Watson, watsonx)\n2. Hybrid cloud strategy\n3. Quantum computing\n4. Sustainability efforts\n\nWhich interests you most?" }
  else if jsIncludes conversationHistory "ibm" && jsIncludes userInput "ai" then
    { content := "Excellent choice! Let me gather more detailed information about IBM\x27s AI initiatives.",
      tool_calls := [demoToolCall time "google_search"
        "\x7b\"query\":\"IBM AI Watson watsonx artificial intelligence 2024\",\"num_results\":3\x7d"] }
  else if jsIncludes userInput "search" || jsIncludes userInput "find" then
    let searchTerm := extractSearchTerm userInput
    { content := content0 ++ "I\x27ll search for information about \"" ++ searchTerm ++ "\".",
      tool_calls := [demoToolCall time "google_search"
        ("\x7b\"query\":" ++ jsonStr searchTerm ++ ",\"num_results\":5\x7d")] }
  else if jsIncludes userInput "code" || jsIncludes userInput "javascript" then
    { content := content0 ++ "I\x27ll run some JavaScript code for you.",
      tool_calls := [demoToolCall time "execute_javascript"
        ("\x7b\"code\":" ++ jsonStr frontendDemoCode ++ "\x7d")] }
  else if jsIncludes userInput "analyze" || jsIncludes userInput "summarize" then
    { content := content0 ++ "I\x27ll process that using an AI workflow.",
      tool_calls := [demoToolCall time "ai_pipe"
        ("\x7b\"workflow\":\"summarize\",\"data\":" ++ jsonStr userInput ++ "\x7d")] }
  else if jsIncludes conversationHistory "interview" || jsIncludes conversationHistory "blog" then
    { content := interviewResponses.getD (rand % interviewResponses.length) "" }
  else
    { content := content0 ++ "I\x27m here to help with searches, code execution, and AI workflows. Add API keys for full functionality!" }

/-- Whether `getMockLLMResponse` reaches the randomized interview-questions
branch (every earlier guard false, and the conversation history mentions
`interview` or `blog`). -/
def reachesInterviewRandomBranch (conversation : List ChatMessage) : Bool :=
  let userInput := match conversation.getLast? with
    | some m => jsToLower m.content
    | none => ""
  let conversationHistory := jsToLower (joinSpace (conversation.map ChatMessage.content))
  !(jsIncludes userInput "interview" && jsIncludes userInput "blog") &&
  !(jsIncludes userInput "ibm" && (jsIncludes conversationHistory "interview" || jsIncludes conversationHistory "blog")) &&
  !((jsIncludes userInput "next" || jsIncludes userInput "continue") && jsIncludes conversationHistory "ibm") &&
  !(jsIncludes conversationHistory "ibm" && jsIncludes userInput "ai") &&
  !(jsIncludes userInput "search" || jsIncludes userInput "find") &&
  !(jsIncludes userInput "code" || jsIncludes userInput "javascript") &&
  !(jsIncludes userInput "analyze" || jsIncludes userInput "summarize") &&
  (jsIncludes conversationHistory "interview" || jsIncludes conversationHistory "blog")

/-- Erase the timestamp-derived tool-call ids of a normalized response. -/
def stripToolCallIds (r : LLMResponse) : LLMResponse :=
  { r with tool_calls := r.tool_calls.map (fun tc => { tc with id := "" }) }

/-- Erase the timestamp-derived tool-call ids of a choices-wrapped mock body. -/
def stripMockIds (m : MockResponse) : MockResponse :=
  { choices := m.choices.map (fun c =>
      { message := { c.message with
          tool_calls := c.message.tool_calls.map (fun tc => { tc with id := "" }) } }) }

/-! ## Helper lemmas -/

theorem append_ne_left (s t : String) (h : s ≠ "") : s ++ t ≠ "" := by
  intro h2
  apply h
  apply String.ext
  have h3 := congrArg String.data h2
  rw [String.data_append] at h3
  exact (List.append_eq_nil.mp h3).1

theorem jsSubstring_ne_empty (s : String) (n : Nat) (hs : s ≠ "") (hn : 0 < n) :
    jsSubstring s n ≠ "" := by
  intro h2
  apply hs
  apply String.ext
  have h3 := congrArg String.data h2
  simp only [jsSubstring] at h3
  cases hd : s.data with
  | nil => rfl
  | cons c cs =>
    rw [hd] at h3
    cases n with
    | zero => exact absurd hn (by simp)
    | succ m => simp [List.take] at h3

theorem jsSubstring_length_le (s : String) (n : Nat) : (jsSubstring s n).length ≤ n := by
  simp only [jsSubstring, String.length]
  exact List.length_take_le n s.data

theorem length_filter_add_length_filter_not {α : Type} (p : α → Bool) (l : List α) :
    (l.filter p).length + (l.filter (fun a => !(p a))).length = l.length := by
  induction l with
  | nil => rfl
  | cons a l ih =>
    by_cases h : p a = true <;> simp [List.filter, h] <;> omega

theorem head?_append_left {α : Type} (l t : List α) (h : l ≠ []) :
    (l ++ t).head? = l.head? := by
  cases l with
  | nil => exact absurd rfl h
  | cons a as => rfl

/-! ## Claim C3: conversation trimming -/

def sampleMessages (n : Nat) : List ChatMessage :=
  (List.range n).map (fun i => { role := "user", content := toString i })

/-- C3 counterexample: on a 51-entry message list, the `/api/llm` limiter
(`[...messages.slice(0, 2), ...messages.slice(-48)]`) does NOT keep the first
entry plus the most recent 49 — it keeps the first two plus the last 48, so
entry 1 survives instead of entry 2. -/
theorem C3_counterexample_server_keeps_two :
    trimLlmMessages (sampleMessages 51) ≠
      (sampleMessages 51).take 1 ++ (sampleMessages 51).drop 2 := by decide

/-- C3 (amended): when the list exceeds `maxConversationLength` (50), the
frontend sweep `cleanConversationMemory` keeps exactly the first entry plus
the most recent 49 (so 50 entries, head preserved), as the claim states;
the `/api/llm` limiter however keeps the first TWO entries plus the most
recent 48 (also 50 entries). -/
theorem C3_trim_keeps_anchor_plus_recent (msgs : List ChatMessage) (h : 50 < msgs.length) :
    cleanConversationMemory msgs = msgs.take 1 ++ msgs.drop (msgs.length - 49) ∧
    (cleanConversationMemory msgs).length = 50 ∧
    (cleanConversationMemory msgs).head? = msgs.head? ∧
    trimLlmMessages msgs = msgs.take 2 ++ msgs.drop (msgs.length - 48) ∧
    (trimLlmMessages msgs).length = 50 := by
  have h1 : cleanConversationMemory msgs = msgs.take 1 ++ msgs.drop (msgs.length - 49) := by
    simp [cleanConversationMemory, maxConversationLength, h]
  have h2 : trimLlmMessages msgs = msgs.take 2 ++ msgs.drop (msgs.length - 48) := by
    simp [trimLlmMessages, h]
  refine ⟨h1, ?_, ?_, h2, ?_⟩
  · rw [h1, List.length_append, List.length_take, List.length_drop]
    omega
  · rw [h1, head?_append_left]
    · cases msgs with
      | nil => simp at h
      | cons a as => rfl
    · cases msgs with
      | nil => simp at h
      | cons a as => simp
  · rw [h2, List.length_append, List.length_take, List.length_drop]
    omega

theorem C3_trim_witness :
    50 < (sampleMessages 51).length ∧
    (cleanConversationMemory (sampleMessages 51) =
      (sampleMessages 51).take 1 ++ (sampleMessages 51).drop 2 ∧
    (cleanConversationMemory (sampleMessages 51)).length = 50 ∧
    (cleanConversationMemory (sampleMessages 51)).head? = (sampleMessages 51).head? ∧
    trimLlmMessages (sampleMessages 51) =
      (sampleMessages 51).take 2 ++ (sampleMessages 51).drop 3 ∧
    (trimLlmMessages (sampleMessages 51)).length = 50) :=
  ⟨by decide, C3_trim_keeps_anchor_plus_recent (sampleMessages 51) (by decide)⟩

/-! ## Claim C5: tool-call batches -/

def execOkStub : ToolCall → Except String String := fun _ => .ok "\x7b\x7d"

def callOne : ToolCall := { id := "call_1", function := { name := "google_search", arguments := "\x7b\x7d" } }

/-- A tool call whose `arguments` string is not valid JSON. -/
def badArgsCall : ToolCall :=
  { id := "call_bad", function := { name := "google_search", arguments := "not json" } }

/-- C5 counterexample: `JSON.parse(toolCall.function.arguments)` runs outside
`handleToolCall`'s try/catch, so a batch containing one call with unparsable
arguments rejects the whole `Promise.all` and the turn aborts with NO
assistant entry and NO tool entries appended — not the claimed assistant
entry followed by k correlated tool entries. -/
theorem C5_counterexample_unparsable_args_aborts :
    jsonParseable badArgsCall.function.arguments = false ∧
    ({ content := "c", tool_calls := [badArgsCall] } : LLMResponse).tool_calls.length = 1 ∧
    agentLoop execOkStub [] [{ content := "c", tool_calls := [badArgsCall] }] = [] := by
  decide

theorem handleToolCall_ok_of_parseable (exec : ToolCall → Except String String)
    (tc : ToolCall) (hp : jsonParseable tc.function.arguments = true) :
    ∃ m : ChatMessage, handleToolCall exec tc = .ok m ∧
      m.role = "tool" ∧ m.tool_call_id = some tc.id := by
  unfold handleToolCall
  rw [if_pos hp]
  cases exec tc with
  | ok s => exact ⟨_, rfl, rfl, rfl⟩
  | error msg => exact ⟨_, rfl, rfl, rfl⟩

theorem promiseAll_ok_of_parseable (exec : ToolCall → Except String String) :
    ∀ tcs : List ToolCall, (∀ tc ∈ tcs, jsonParseable tc.function.arguments = true) →
    ∃ ms, promiseAll (tcs.map (handleToolCall exec)) = .ok ms ∧
      ms.length = tcs.length ∧
      ms.map ChatMessage.tool_call_id = tcs.map (fun tc => some tc.id) ∧
      ∀ m ∈ ms, m.role = "tool" := by
  intro tcs
  induction tcs with
  | nil => exact fun _ => ⟨[], rfl, rfl, rfl, by simp⟩
  | cons tc tcs ih =>
    intro hp
    obtain ⟨m, hm, hrole, hid⟩ := handleToolCall_ok_of_parseable exec tc (hp tc (by simp))
    obtain ⟨ms, hms, hlen, hids, hroles⟩ := ih (fun tc2 h2 => hp tc2 (by simp [h2]))
    refine ⟨m :: ms, ?_, by simp [hlen], by simp [hid, hids], ?_⟩
    · simp only [List.map_cons, hm]
      simp [promiseAll, hms]
    · intro x hx
      rcases List.mem_cons.mp hx with h | h
      · subst h; exact hrole
      · exact hroles x h

/-- C5 (amended): for a batch of k tool calls in one assistant response
whose every `arguments` string parses as JSON, `Promise.all` resolves and the
loop appends the assistant entry first and then exactly k tool-role entries,
in issue order, whose `tool_call_id`s are exactly the k request ids in order
(hence each id appears exactly once when the request ids are distinct); on
both the tool-success and the tool-failure path `handleToolCall` yields the
entry with the originating id, so `id = "call_1"` yields
`tool_call_id = "call_1"`.  A batch containing a call with unparsable
arguments instead rejects the `Promise.all` and aborts the turn with nothing
appended. -/
theorem C5_parseable_batch_appends_correlated (exec : ToolCall → Except String String)
    (conv : List ChatMessage) (r : LLMResponse) (h : r.tool_calls ≠ [])
    (hp : ∀ tc ∈ r.tool_calls, jsonParseable tc.function.arguments = true) :
    ∃ results,
      promiseAll (r.tool_calls.map (handleToolCall exec)) = .ok results ∧
      agentLoop exec conv [r] =
        conv ++ ({ role := "assistant", content := r.content, tool_calls := r.tool_calls } ::
          results) ∧
      results.length = r.tool_calls.length ∧
      results.map ChatMessage.tool_call_id = r.tool_calls.map (fun tc => some tc.id) ∧
      (∀ m ∈ results, m.role = "tool") ∧
      (∀ tc, jsonParseable tc.function.arguments = true →
        ∃ m, handleToolCall exec tc = .ok m ∧ m.role = "tool" ∧ m.tool_call_id = some tc.id) := by
  obtain ⟨ms, hms, hlen, hids, hroles⟩ := promiseAll_ok_of_parseable exec r.tool_calls hp
  refine ⟨ms, hms, ?_, hlen, hids, hroles,
    fun tc hptc => handleToolCall_ok_of_parseable exec tc hptc⟩
  unfold agentLoop
  rw [if_pos h, hms]
  simp [agentLoop]

theorem C5_parseable_batch_witness :
    ([callOne] : List ToolCall) ≠ [] ∧
    jsonParseable callOne.function.arguments = true ∧
    agentLoop execOkStub [] [{ content := "c", tool_calls := [callOne] }] =
      [{ role := "assistant", content := "c", tool_calls := [callOne] },
       { role := "tool", content := "\x7b\x7d", tool_call_id := some "call_1" }] := by
  refine ⟨by decide, by decide, ?_⟩
  obtain ⟨ms, hms, hloop, hlen, hids, hroles, hcall⟩ :=
    C5_parseable_batch_appends_correlated execOkStub []
      { content := "c", tool_calls := [callOne] } (by decide)
      (by intro tc htc; rw [List.mem_singleton] at htc; subst htc; decide)
  have hval : promiseAll
      ((({ content := "c", tool_calls := [callOne] } : LLMResponse).tool_calls).map
        (handleToolCall execOkStub)) =
      .ok [{ role := "tool", content := "\x7b\x7d", tool_call_id := some "call_1" }] := by
    rfl
  have hmseq : ms =
      [{ role := "tool", content := "\x7b\x7d", tool_call_id := some "call_1" }] :=
    Except.ok.inj (hms.symm.trans hval)
  rw [hmseq] at hloop
  simpa using hloop

/-! ## Claim C8: /api/execute error reporting -/

def runStubOk : String → List String × List String × VmOutcome := fun _ => ([], [], .ok none)

/-- C8 counterexample: a `POST /api/execute` request without a usable `code`
string is answered with HTTP 400 — a non-2xx status — so "for every POST
/api/execute request, the response status is 2xx" is false as stated. -/
theorem C8_counterexample_missing_code_400 :
    execStatus (apiExecute runStubOk 0 none) = 400 ∧
    is2xx (execStatus (apiExecute runStubOk 0 none)) = false := by decide

/-- C8 (amended): for every request whose `code` is a present, non-empty
string the status is 200 (2xx), and a sandbox throw is reported inside the
body as `success:false` with the message in `errors` and `error` — never as
a non-2xx status; a request without a usable `code` is rejected with 400
before any execution. -/
theorem C8_execute_reports_failure_in_body
    (run : String → List String × List String × VmOutcome) (now : Nat) (c : String)
    (hc : c ≠ "") :
    execStatus (apiExecute run now (some c)) = 200 ∧
    is2xx (execStatus (apiExecute run now (some c))) = true ∧
    (∀ logs errs msg, run (jsSubstring c 10000) = (logs, errs, .thrown msg) →
      apiExecute run now (some c) =
        .ok { success := false, result := none, logs := [], errors := [msg],
              error := some (jsSubstring msg 1000), timestamp := now }) := by
  rcases hrun : run (jsSubstring c 10000) with ⟨logs, errs, out⟩
  refine ⟨?_, ?_, ?_⟩
  · cases out <;> simp [apiExecute, hc, hrun, execStatus]
  · cases out <;> simp [apiExecute, hc, hrun, execStatus, is2xx]
  · intro logs2 errs2 msg hmsg
    simp only [Prod.mk.injEq] at hmsg
    obtain ⟨h1, h2, h3⟩ := hmsg
    subst h3
    simp [apiExecute, hc, hrun]

/-! ## Claim C1: /api/llm never 5xx for LLM failures -/

theorem getMockResponse_body_ok (provider model : Option String)
    (messages : List ChatMessage) (time : Nat) :
    mockBodyOk (getMockResponse provider model messages time) := by
  simp only [mockBodyOk, getMockResponse]
  split_ifs with h1 h2 h3 <;>
    refine ⟨_, List.mem_singleton_self _, Or.inl ?_⟩
  · repeat apply append_ne_left
    decide
  · repeat apply append_ne_left
    decide
  · repeat apply append_ne_left
    decide
  · apply jsSubstring_ne_empty
    · repeat apply append_ne_left
      decide
    · decide

theorem llmStatus_lt_500 (r : LlmHttpResult) : llmStatus r < 500 := by
  cases r <;> simp [llmStatus]

/-- C1: for every `/api/llm` request that passes input validation, the
endpoint never answers an LLM failure with a 5xx status: an
empty/blank/`'undefined'`/`'null'` credential short-circuits to HTTP 200 with
the mock responder body, a failed live call on a supported provider degrades
to HTTP 200 with the mock responder body, and every mock body carries a
non-null (indeed non-empty) `content` or non-empty `tool_calls` inside its
choices-wrapped shape. -/
theorem C1_llm_failures_degrade_to_mock (p md : String) (msgs : List ChatMessage)
    (apiKey : Option String) (live : Option LLMResponse) (time : Nat)
    (hp : p ≠ "") (hmd : md ≠ "") :
    llmStatus (apiLlm (some p) (some md) (some msgs) apiKey live time) < 500 ∧
    (demoModeKey apiKey = true →
      apiLlm (some p) (some md) (some msgs) apiKey live time =
        .okMock (getMockResponse (some p) (some md)
          (truncateLlmMessages (trimLlmMessages msgs)) time)) ∧
    (demoModeKey apiKey = false → supportedProvider p = true → live = none →
      apiLlm (some p) (some md) (some msgs) apiKey live time =
        .okMock (getMockResponse (some p) (some md)
          (truncateLlmMessages (trimLlmMessages msgs)) time)) ∧
    (∀ pv mo ms t, mockBodyOk (getMockResponse pv mo ms t)) := by
  refine ⟨llmStatus_lt_500 _, ?_, ?_, fun pv mo ms t => getMockResponse_body_ok pv mo ms t⟩
  · intro hdemo
    simp [apiLlm, hp, hmd, hdemo]
  · intro hdemo hsupp hlive
    subst hlive
    simp [apiLlm, hp, hmd, hdemo, hsupp]

theorem C1_llm_witness :
    ("openai" ≠ "" ∧ "gpt-4o" ≠ "") ∧
    (llmStatus (apiLlm (some "openai") (some "gpt-4o")
        (some [{ role := "user", content := "hello" }]) (some "") none 0) < 500 ∧
      (demoModeKey (some "") = true →
        apiLlm (some "openai") (some "gpt-4o")
            (some [{ role := "user", content := "hello" }]) (some "") none 0 =
          .okMock (getMockResponse (some "openai") (some "gpt-4o")
            (truncateLlmMessages (trimLlmMessages [{ role := "user", content := "hello" }])) 0)) ∧
      (demoModeKey (some "") = false → supportedProvider "openai" = true →
          (none : Option LLMResponse) = none →
        apiLlm (some "openai") (some "gpt-4o")
            (some [{ role := "user", content := "hello" }]) (some "") none 0 =
          .okMock (getMockResponse (some "openai") (some "gpt-4o")
            (truncateLlmMessages (trimLlmMessages [{ role := "user", content := "hello" }])) 0)) ∧
      (∀ pv mo ms t, mockBodyOk (getMockResponse pv mo ms t))) :=
  ⟨⟨by decide, by decide⟩,
    C1_llm_failures_degrade_to_mock "openai" "gpt-4o" [{ role := "user", content := "hello" }]
      (some "") none 0 (by decide) (by decide)⟩

/-! ## Claim C10: whitespace-only query hits the first knowledge-base topic -/

def openaiKbResults : List SearchResult := (knowledgeBase.headD ("", [])).2

/-- C10: a non-empty query consisting only of whitespace passes `/api/search`
validation, is trimmed to the empty string, and — with no Google credentials
and a failed Wikipedia lookup — matches the FIRST knowledge-base topic
(`"openai"`), because every topic string contains the empty substring; the
endpoint answers HTTP 200 with the hand-authored openai results and source
"Enhanced Knowledge Base", neither rejecting the query nor falling through to
the generic contextual results. -/
theorem C10_whitespace_query_serves_openai_kb (q : String) (n : Option Int) (now : Nat)
    (hne : q ≠ "") (hws : jsTrim q = "") :
    (apiSearch none none now [] (some q) n).1 =
      .ok { query := "", results := openaiKbResults.take (clampNumResults n),
            source := "Enhanced Knowledge Base", totalResults := 3, timestamp := now } ∧
    searchStatus (apiSearch none none now [] (some q) n).1 = 200 := by
  have hmain : (apiSearch none none now [] (some q) n).1 =
      .ok { query := "", results := openaiKbResults.take (clampNumResults n),
            source := "Enhanced Knowledge Base", totalResults := 3, timestamp := now } := by
    simp only [apiSearch, hne, hws, if_neg hne]
    rfl
  exact ⟨hmain, by rw [hmain]; rfl⟩

theorem C10_whitespace_witness :
    ("   " ≠ "" ∧ jsTrim "   " = "") ∧
    ((apiSearch none none 7 [] (some "   ") (some 5)).1 =
      .ok { query := "", results := openaiKbResults.take (clampNumResults (some 5)),
            source := "Enhanced Knowledge Base", totalResults := 3, timestamp := 7 } ∧
      searchStatus (apiSearch none none 7 [] (some "   ") (some 5)).1 = 200) :=
  ⟨⟨by decide, by decide⟩,
    C10_whitespace_query_serves_openai_kb "   " (some 5) 7 (by decide) (by decide)⟩

/-! ## Claim C2: title/snippet length caps -/

def longQuery : String := String.mk (List.replicate 160 'a')

def anyResultOverTitleCap : SearchHttpResult → Bool
  | .ok b => b.results.any (fun r => 150 < r.title.length)
  | .badRequest _ => false

def respSource : SearchHttpResult → String
  | .ok b => b.source
  | .badRequest _ => ""

/-- C2 counterexample: with no credentials and a failed Wikipedia lookup, a
160-character query (within the 200-character query cap) produces a generated
contextual fallback result whose title — `query + " - Wikipedia
Encyclopedia"` — has 185 characters, exceeding the 150-character cap, and
`/api/search` returns it uncapped. -/
theorem C2_counterexample_fallback_title_uncapped :
    anyResultOverTitleCap (apiSearch none none 0 [] (some longQuery) (some 5)).1 = true ∧
    respSource (apiSearch none none 0 [] (some longQuery) (some 5)).1 =
      "Contextual Search Results" := by decide

/-- C2 (amended): the length caps (title ≤ 150, snippet ≤ 300) hold for every
result produced on the live Google API path (`performGoogleSearch` truncates
each field), and the hand-authored knowledge-base entries happen to satisfy
them as well — but the generated contextual fallback applies no cap, so the
contract does NOT hold "regardless of source" (see the counterexample). -/
theorem C2_google_path_results_capped :
    (∀ (items : List RawItem) (totalRaw : Option Nat) (searchTime : Nat)
      (q : String) (numResults now : Nat),
      ∀ r ∈ (performGoogleSearch items totalRaw searchTime q numResults now).results,
        r.title.length ≤ 150 ∧ r.snippet.length ≤ 300) ∧
    (∀ kv ∈ knowledgeBase, ∀ r ∈ kv.2, r.title.length ≤ 150 ∧ r.snippet.length ≤ 300) := by
  constructor
  · intro items totalRaw searchTime q numResults now r hr
    simp only [performGoogleSearch] at hr
    have hr2 : r ∈ items.map googleItemToResult := List.take_subset _ _ hr
    obtain ⟨item, hitem, rfl⟩ := List.mem_map.mp hr2
    exact ⟨jsSubstring_length_le _ _, jsSubstring_length_le _ _⟩
  · decide

def sampleRawItem : RawItem :=
  { title := some "T", link := some "https://x.y", snippet := some "S", displayLink := some "x.y" }

theorem C2_google_capped_witness :
    (googleItemToResult sampleRawItem).title.length ≤ 150 ∧
    (googleItemToResult sampleRawItem).snippet.length ≤ 300 :=
  C2_google_path_results_capped.1 [sampleRawItem] none 0 "q" 5 0
    (googleItemToResult sampleRawItem) (by decide)

/-! ## Claim C4: conversation length bound and anchor preservation -/

theorem agentLoop_eq_append (exec : ToolCall → Except String String)
    (rs : List LLMResponse) :
    ∀ conv, ∃ t, agentLoop exec conv rs = conv ++ t := by
  induction rs with
  | nil => exact fun conv => ⟨[], (List.append_nil conv).symm⟩
  | cons r rs ih =>
    intro conv
    unfold agentLoop
    split_ifs with h
    · rcases hp : promiseAll (r.tool_calls.map (handleToolCall exec)) with e | toolResults
      · exact ⟨[], (List.append_nil conv).symm⟩
      · obtain ⟨t2, ht2⟩ := ih
          (conv ++ ({ role := "assistant", content := r.content, tool_calls := r.tool_calls } ::
            toolResults))
        refine ⟨({ role := "assistant", content := r.content, tool_calls := r.tool_calls } ::
            toolResults) ++ t2, ?_⟩
        show agentLoop exec
          (conv ++ ({ role := "assistant", content := r.content, tool_calls := r.tool_calls } ::
            toolResults)) rs = _
        rw [ht2, List.append_assoc]
    · exact ⟨_, rfl⟩

theorem cleanConversationMemory_head? (conv : List ChatMessage) :
    (cleanConversationMemory conv).head? = conv.head? := by
  unfold cleanConversationMemory
  split_ifs with h
  · rw [head?_append_left]
    · cases conv with
      | nil => simp [maxConversationLength] at h
      | cons a as => rfl
    · cases conv with
      | nil => simp [maxConversationLength] at h
      | cons a as => simp
  · rfl

theorem head?_ne_nil_of (l l' : List ChatMessage) (heq : l'.head? = l.head?) (h : l ≠ []) :
    l' ≠ [] := by
  intro h2
  apply h
  rw [h2] at heq
  exact List.head?_eq_none_iff.mp heq.symm

theorem applyOp_head? (exec : ToolCall → Except String String) (conv : List ChatMessage)
    (op : AgentOp) (h : conv ≠ []) : (applyOp exec conv op).head? = conv.head? := by
  cases op with
  | sweep => exact cleanConversationMemory_head? conv
  | turn u rs =>
    show (runTurn exec conv u rs).head? = conv.head?
    unfold runTurn
    obtain ⟨t, ht⟩ := agentLoop_eq_append exec rs
      (conv ++ [{ role := "user", content := jsSubstring u 2000 }])
    rw [ht, List.append_assoc, head?_append_left _ _ h]

theorem runOps_head? (exec : ToolCall → Except String String) (ops : List AgentOp) :
    ∀ conv, conv ≠ [] → (runOps exec conv ops).head? = conv.head? := by
  induction ops with
  | nil => intro conv h; rfl
  | cons op ops ih =>
    intro conv h
    show (runOps exec (applyOp exec conv op) ops).head? = conv.head?
    have h1 := applyOp_head? exec conv op h
    rw [ih _ (head?_ne_nil_of conv _ h1 h), h1]

def noToolResponse : LLMResponse := { content := "ok" }

/-- C4 counterexample: the conversation cap is enforced only by the periodic
sweep, not after each append, so after 26 completed no-tool turns from an
empty conversation the retained length is 52 > `maxConversationLength` —
"after any number of completed turns, len(conversation) ≤
maxConversationLength" is false as stated. -/
theorem C4_counterexample_turns_exceed_cap :
    (runOps execOkStub [] (List.replicate 26 (AgentOp.turn "hi" [noToolResponse]))).length = 52 ∧
    maxConversationLength <
      (runOps execOkStub [] (List.replicate 26 (AgentOp.turn "hi" [noToolResponse]))).length := by
  decide

/-- C4 (amended): turns only append, so between sweeps the retained length can
exceed `maxConversationLength` (counterexample above); every run of the sweep
leaves at most `maxConversationLength` entries; and across any interleaving of
completed turns and sweeps the first retained entry is always the original
entry 0 — the anchor is never evicted. -/
theorem C4_sweep_bound_and_anchor_preserved (exec : ToolCall → Except String String) :
    (∀ conv, (cleanConversationMemory conv).length ≤ maxConversationLength) ∧
    (∀ u rs ops, (runOps exec [] (AgentOp.turn u rs :: ops)).head? =
      some { role := "user", content := jsSubstring u 2000 }) ∧
    (∀ conv ops, conv ≠ [] → (runOps exec conv ops).head? = conv.head?) := by
  refine ⟨?_, ?_, fun conv ops h => runOps_head? exec ops conv h⟩
  · intro conv
    unfold cleanConversationMemory
    split_ifs with h
    · rw [List.length_append, List.length_take, List.length_drop]
      simp only [maxConversationLength] at h ⊢
      omega
    · omega
  · intro u rs ops
    show (runOps exec (applyOp exec [] (AgentOp.turn u rs)) ops).head? = _
    have hturn : applyOp exec [] (AgentOp.turn u rs) =
        runTurn exec [] u rs := rfl
    obtain ⟨t, ht⟩ := agentLoop_eq_append exec rs
      [{ role := "user", content := jsSubstring u 2000 }]
    have hconv : applyOp exec [] (AgentOp.turn u rs) =
        { role := "user", content := jsSubstring u 2000 } :: t := by
      rw [hturn]
      unfold runTurn
      rw [List.nil_append, ht]
      rfl
    rw [runOps_head? exec ops _ (by rw [hconv]; exact List.cons_ne_nil _ _), hconv]
    rfl

theorem C4_anchor_witness :
    ([{ role := "user", content := "hi" }] ≠ ([] : List ChatMessage)) ∧
    (runOps execOkStub [{ role := "user", content := "hi" }] [AgentOp.sweep]).head? =
      ([{ role := "user", content := "hi" }] : List ChatMessage).head? :=
  ⟨by decide,
    (C4_sweep_bound_and_anchor_preserved execOkStub).2.2
      [{ role := "user", content := "hi" }] [AgentOp.sweep] (by decide)⟩

/-! ## Claim C9: mock responder determinism -/

theorem interviewResponses_getD_mem (i : Nat) (h : i < interviewResponses.length) :
    interviewResponses.getD i "" ∈ interviewResponses := by
  rw [List.getD_eq_getElem _ _ h]
  exact List.getElem_mem h

theorem interviewResponses_getD_ne (r : Nat) :
    interviewResponses.getD (r % interviewResponses.length) "" ≠ "" := by
  have h : r % interviewResponses.length < interviewResponses.length :=
    Nat.mod_lt _ (by decide)
  have hall : ∀ s ∈ interviewResponses, s ≠ "" := by decide
  exact hall _ (interviewResponses_getD_mem _ h)

def interviewConv : List ChatMessage := [{ role := "user", content := "interview" }]

/-- C9 counterexample: two invocations of the browser mock responder with the
identical inputs (provider `openai`, model `gpt-4o`, conversation
`[user: "interview"]`) and different `Math.random()` draws return different
`content` — a difference that survives erasing the timestamp-derived ids — so
the responder is not deterministic aside from timestamps/ids. -/
theorem C9_counterexample_random_interview_content :
    getMockLLMResponse "openai" "gpt-4o" interviewConv 0 0 ≠
      getMockLLMResponse "openai" "gpt-4o" interviewConv 0 1 ∧
    stripToolCallIds (getMockLLMResponse "openai" "gpt-4o" interviewConv 0 0) ≠
      stripToolCallIds (getMockLLMResponse "openai" "gpt-4o" interviewConv 0 1) := by decide

set_option maxHeartbeats 1000000 in
/-- C9 (amended): the server-side mock responder is deterministic once the
timestamp-derived tool-call ids are erased; the browser mock responder is
deterministic in the same sense EXCEPT when it reaches the interview/blog
follow-up branch, where `Math.random()` picks the content from the fixed
five-question list (with no tool calls); and neither responder ever returns
an empty content together with empty tool calls. -/
theorem C9_mock_determinism_outside_interview_branch :
    (∀ pv mo msgs t1 t2, stripMockIds (getMockResponse pv mo msgs t1) =
      stripMockIds (getMockResponse pv mo msgs t2)) ∧
    (∀ p m conv t1 t2 r1 r2,
      stripToolCallIds (getMockLLMResponse p m conv t1 r1) =
        stripToolCallIds (getMockLLMResponse p m conv t2 r2) ∨
      (reachesInterviewRandomBranch conv = true ∧
        (getMockLLMResponse p m conv t1 r1).content ∈ interviewResponses ∧
        (getMockLLMResponse p m conv t1 r1).tool_calls = [] ∧
        (getMockLLMResponse p m conv t2 r2).content ∈ interviewResponses ∧
        (getMockLLMResponse p m conv t2 r2).tool_calls = [])) ∧
    (∀ p m conv t r, (getMockLLMResponse p m conv t r).content ≠ "") ∧
    (∀ pv mo msgs t, mockBodyOk (getMockResponse pv mo msgs t)) := by
  refine ⟨?_, ?_, ?_, fun pv mo msgs t => getMockResponse_body_ok pv mo msgs t⟩
  · intro pv mo msgs t1 t2
    simp only [getMockResponse]
    split_ifs with h1 h2 h3 <;> simp [stripMockIds, demoToolCall]
  · intro p m conv t1 t2 r1 r2
    simp only [getMockLLMResponse]
    split_ifs with h1 h2 h3 h4 h5 h6 h7 h8
    · left; rfl
    · left; simp [stripToolCallIds, demoToolCall]
    · left; rfl
    · left; simp [stripToolCallIds, demoToolCall]
    · left; simp [stripToolCallIds, demoToolCall]
    · left; simp [stripToolCallIds, demoToolCall]
    · left; simp [stripToolCallIds, demoToolCall]
    · right
      rw [Bool.not_eq_true] at h1 h2 h3 h4 h5 h6 h7
      refine ⟨?_, interviewResponses_getD_mem _ (Nat.mod_lt _ (by decide)), rfl,
        interviewResponses_getD_mem _ (Nat.mod_lt _ (by decide)), rfl⟩
      simp only [reachesInterviewRandomBranch]
      rw [h1, h2, h3, h4, h5, h6, h7, h8]
      rfl
    · left; rfl
  · intro p m conv t r
    simp only [getMockLLMResponse]
    split_ifs with h1 h2 h3 h4 h5 h6 h7 h8
    · decide
    · show ("Let me search for current IBM information to help with your blog post." : String) ≠ ""
      decide
    · decide
    · show ("Excellent choice! Let me gather more detailed information about IBM\x27s AI initiatives." : String) ≠ ""
      decide
    · repeat apply append_ne_left
      decide
    · repeat apply append_ne_left
      decide
    · repeat apply append_ne_left
      decide
    · exact interviewResponses_getD_ne r
    · repeat apply append_ne_left
      decide

/-! ## Claim C6: cache sweep invariants -/

theorem insertByTimestamp_perm (x : CacheEntry) (l : List CacheEntry) :
    (insertByTimestamp x l).Perm (x :: l) := by
  induction l with
  | nil => exact List.Perm.refl _
  | cons y ys ih =>
    unfold insertByTimestamp
    split_ifs with h
    · exact List.Perm.refl _
    · exact (ih.cons y).trans (List.Perm.swap x y ys)

theorem sortByTimestamp_perm (l : List CacheEntry) : (sortByTimestamp l).Perm l := by
  induction l with
  | nil => exact List.Perm.refl _
  | cons x xs ih =>
    unfold sortByTimestamp
    exact (insertByTimestamp_perm x (sortByTimestamp xs)).trans (ih.cons x)

theorem insertByTimestamp_pairwise (x : CacheEntry) (l : List CacheEntry)
    (h : l.Pairwise (fun a b => a.timestamp ≤ b.timestamp)) :
    (insertByTimestamp x l).Pairwise (fun a b => a.timestamp ≤ b.timestamp) := by
  induction l with
  | nil => simp [insertByTimestamp]
  | cons y ys ih =>
    rw [List.pairwise_cons] at h
    unfold insertByTimestamp
    split_ifs with hxy
    · rw [List.pairwise_cons]
      refine ⟨?_, List.pairwise_cons.mpr h⟩
      intro z hz
      rcases List.mem_cons.mp hz with hz | hz
      · rw [hz]
        exact hxy
      · exact le_trans hxy (h.1 z hz)
    · rw [List.pairwise_cons]
      refine ⟨?_, ih h.2⟩
      intro z hz
      have hz2 := (insertByTimestamp_perm x ys).mem_iff.mp hz
      rcases List.mem_cons.mp hz2 with hz2 | hz2
      · rw [hz2]
        exact le_of_not_le hxy
      · exact h.1 z hz2

theorem sortByTimestamp_pairwise (l : List CacheEntry) :
    (sortByTimestamp l).Pairwise (fun a b => a.timestamp ≤ b.timestamp) := by
  induction l with
  | nil => simp [sortByTimestamp]
  | cons x xs ih => exact insertByTimestamp_pairwise x (sortByTimestamp xs) ih

theorem performFallbackSearch_cached (wiki : Option SearchResult) (q : String)
    (n now : Nat) : (performFallbackSearch wiki q n now).cached = false := by
  have hkb : (getKnowledgeBaseResults q n now).cached = false := by
    unfold getKnowledgeBaseResults
    rcases h : knowledgeBase.find? (fun kv =>
      jsIncludes (jsToLower q) kv.1 || jsIncludes kv.1 (jsToLower q)) with _ | kv <;> simp [h]
  unfold performFallbackSearch
  cases wiki with
  | none => exact hkb
  | some w => simpa using hkb

theorem key_mem_of_mem_remove (toRemove : List CacheEntry) (e : CacheEntry)
    (he : e ∈ toRemove) :
    (!((toRemove.map CacheEntry.key).contains e.key)) = false := by
  have hmem : e.key ∈ toRemove.map CacheEntry.key := List.mem_map_of_mem CacheEntry.key he
  simpa [List.contains, List.elem_iff] using hmem

theorem cleanCacheWith_cap_exact (ttl maxSize now : Nat) (cache : List CacheEntry)
    (hnodup : (cache.map CacheEntry.key).Nodup)
    (hcap : maxSize < (cache.filter (fun e => decide (now - e.timestamp ≤ ttl))).length) :
    (cleanCacheWith ttl maxSize now cache).length = maxSize ∧
    (∀ x ∈ cache.filter (fun e => decide (now - e.timestamp ≤ ttl)),
      x ∉ cleanCacheWith ttl maxSize now cache →
      ∀ y ∈ cleanCacheWith ttl maxSize now cache, x.timestamp ≤ y.timestamp) := by
  set kept := cache.filter (fun e => decide (now - e.timestamp ≤ ttl)) with hkept
  set toRemove := (sortByTimestamp kept).take (kept.length - maxSize) with htr
  set rest := (sortByTimestamp kept).drop (kept.length - maxSize) with hrest
  set P := fun e : CacheEntry => (!((toRemove.map CacheEntry.key).contains e.key)) with hP
  have hclean : cleanCacheWith ttl maxSize now cache = kept.filter P := by
    simp only [cleanCacheWith]
    rw [← hkept, if_pos hcap]
  have hsplit : toRemove ++ rest = sortByTimestamp kept :=
    List.take_append_drop (kept.length - maxSize) (sortByTimestamp kept)
  have hpermsorted : (sortByTimestamp kept).Perm kept := sortByTimestamp_perm kept
  have hkeptnodup : (kept.map CacheEntry.key).Nodup :=
    (((List.filter_sublist cache).map CacheEntry.key).nodup hnodup : _)
  have hsortednodup : ((sortByTimestamp kept).map CacheEntry.key).Nodup :=
    ((hpermsorted.map CacheEntry.key).nodup_iff).mpr hkeptnodup
  have hdisj : (toRemove.map CacheEntry.key).Disjoint (rest.map CacheEntry.key) := by
    have h2 : ((toRemove ++ rest).map CacheEntry.key).Nodup := by
      rw [hsplit]
      exact hsortednodup
    rw [List.map_append] at h2
    exact (List.nodup_append.mp h2).2.2
  have hrestP : ∀ e ∈ rest, P e = true := by
    intro e he
    have hnot : e.key ∉ toRemove.map CacheEntry.key :=
      fun hmem => hdisj hmem (List.mem_map_of_mem CacheEntry.key he)
    rw [hP]
    simpa [List.contains, List.elem_iff] using hnot
  have hresperm : (kept.filter P).Perm rest := by
    have h1 : (kept.filter P).Perm ((sortByTimestamp kept).filter P) :=
      hpermsorted.symm.filter P
    have h2 : (sortByTimestamp kept).filter P = rest := by
      rw [← hsplit, List.filter_append]
      have hnil : toRemove.filter P = [] := by
        rw [List.filter_eq_nil_iff]
        intro a ha
        rw [hP]
        simp only [Bool.not_eq_true]
        exact key_mem_of_mem_remove toRemove a ha
      have hself : rest.filter P = rest := List.filter_eq_self.mpr hrestP
      rw [hnil, hself, List.nil_append]
    rw [← h2]
    exact h1
  have hlen : (cleanCacheWith ttl maxSize now cache).length = maxSize := by
    rw [hclean, hresperm.length_eq, hrest, List.length_drop, hpermsorted.length_eq]
    omega
  refine ⟨hlen, ?_⟩
  intro x hx hnotin y hy
  rw [hclean] at hnotin hy
  have hyrest : y ∈ rest := hresperm.mem_iff.mp hy
  have hxsorted : x ∈ sortByTimestamp kept := hpermsorted.mem_iff.mpr hx
  rw [← hsplit] at hxsorted
  rcases List.mem_append.mp hxsorted with hxrem | hxrest
  · have hpw : (toRemove ++ rest).Pairwise (fun a b => a.timestamp ≤ b.timestamp) := by
      rw [hsplit]
      exact sortByTimestamp_pairwise kept
    exact (List.pairwise_append.mp hpw).2.2 x hxrem y hyrest
  · exact absurd (hresperm.mem_iff.mpr hxrest) hnotin

theorem apiSearch_cached_only_fresh (google : Option SearchData) (wiki : Option SearchResult)
    (now : Nat) (cache : List CacheEntry) (q : String) (n : Option Int) (b : SearchData)
    (hg : ∀ g, google = some g → g.cached = false)
    (hok : (apiSearch google wiki now cache (some q) n).1 = .ok b)
    (hcached : b.cached = true) :
    ∃ e, cacheGet (cleanCache now cache)
        (jsToLower (jsSubstring (jsTrim q) MAX_QUERY_LENGTH) ++ "_" ++
          toString (clampNumResults n)) = some e ∧
      now - e.timestamp < CACHE_TTL ∧ b = { e.data with cached := true } := by
  simp only [apiSearch] at hok
  by_cases hq : q = ""
  · rw [if_pos hq] at hok
    simp at hok
  · rw [if_neg hq] at hok
    set key := jsToLower (jsSubstring (jsTrim q) MAX_QUERY_LENGTH) ++ "_" ++
      toString (clampNumResults n) with hkey
    rcases hget : cacheGet (cleanCache now cache) key with _ | e
    · rw [hget] at hok
      simp only at hok
      rcases hgo : google with _ | g
      · rw [hgo] at hok
        simp only at hok
        rw [SearchHttpResult.ok.injEq] at hok
        rw [← hok, performFallbackSearch_cached] at hcached
        exact absurd hcached Bool.false_ne_true
      · rw [hgo] at hok
        simp only at hok
        rw [SearchHttpResult.ok.injEq] at hok
        rw [← hok, hg g hgo] at hcached
        exact absurd hcached Bool.false_ne_true
    · rw [hget] at hok
      simp only at hok
      by_cases hage : now - e.timestamp < CACHE_TTL
      · rw [if_pos hage] at hok
        simp only at hok
        rw [SearchHttpResult.ok.injEq] at hok
        exact ⟨e, rfl, hage, hok.symm⟩
      · rw [if_neg hage] at hok
        simp only at hok
        rcases hgo : google with _ | g
        · rw [hgo] at hok
          simp only at hok
          rw [SearchHttpResult.ok.injEq] at hok
          rw [← hok, performFallbackSearch_cached] at hcached
          exact absurd hcached Bool.false_ne_true
        · rw [hgo] at hok
          simp only at hok
          rw [SearchHttpResult.ok.injEq] at hok
          rw [← hok, hg g hgo] at hcached
          exact absurd hcached Bool.false_ne_true

/-- C6: after every run of the cache sweep at most `maxSize` entries remain
(unconditionally) and every entry with `now - timestamp > ttl` has been
deleted; under the `Map` key-uniqueness invariant, when the post-TTL count
exceeds the cap the sweep keeps exactly `maxSize` entries and every removed
fresh entry is no newer than any kept one (the removed entries are exactly
the oldest-by-timestamp ones); and `/api/search` only ever serves a
`cached:true` response from an entry whose age is strictly below
`CACHE_TTL` — no entry older than the TTL is served as fresh. -/
theorem C6_cache_sweep_invariants :
    (∀ ttl maxSize now cache, (cleanCacheWith ttl maxSize now cache).length ≤ maxSize) ∧
    (∀ ttl maxSize now cache, ∀ e ∈ cleanCacheWith ttl maxSize now cache,
      now - e.timestamp ≤ ttl) ∧
    (∀ ttl maxSize now cache,
      ((cache.map CacheEntry.key).Nodup) →
      maxSize < (cache.filter (fun e => decide (now - e.timestamp ≤ ttl))).length →
      (cleanCacheWith ttl maxSize now cache).length = maxSize ∧
      (∀ x ∈ cache.filter (fun e => decide (now - e.timestamp ≤ ttl)),
        x ∉ cleanCacheWith ttl maxSize now cache →
        ∀ y ∈ cleanCacheWith ttl maxSize now cache, x.timestamp ≤ y.timestamp)) ∧
    (∀ google wiki now cache q n b,
      (∀ g, google = some g → g.cached = false) →
      (apiSearch google wiki now cache (some q) n).1 = .ok b → b.cached = true →
      ∃ e, cacheGet (cleanCache now cache)
          (jsToLower (jsSubstring (jsTrim q) MAX_QUERY_LENGTH) ++ "_" ++
            toString (clampNumResults n)) = some e ∧
        now - e.timestamp < CACHE_TTL ∧ b = { e.data with cached := true }) := by
  refine ⟨?_, ?_, ?_, ?_⟩
  · intro ttl maxSize now cache
    simp only [cleanCacheWith]
    split_ifs with h
    · set kept := cache.filter (fun e => decide (now - e.timestamp ≤ ttl)) with hkept
      set toRemove := (sortByTimestamp kept).take (kept.length - maxSize) with htr
      set P := fun e : CacheEntry => (!((toRemove.map CacheEntry.key).contains e.key)) with hP
      have hk : toRemove.length = kept.length - maxSize := by
        rw [htr, List.length_take, (sortByTimestamp_perm kept).length_eq]
        omega
      have hcount : toRemove.length ≤ (kept.filter (fun e => !(P e))).length := by
        have hperm : (kept.filter (fun e => !(P e))).length =
            ((sortByTimestamp kept).filter (fun e => !(P e))).length :=
          ((sortByTimestamp_perm kept).symm.filter _).length_eq
        rw [hperm, ← List.take_append_drop (kept.length - maxSize) (sortByTimestamp kept),
          List.filter_append, List.length_append, ← htr]
        have hall : toRemove.filter (fun e => !(P e)) = toRemove := by
          rw [List.filter_eq_self]
          intro a ha
          rw [hP]
          simp only [Bool.not_eq_true']
          exact key_mem_of_mem_remove toRemove a ha
        rw [hall]
        omega
      have hsplit := length_filter_add_length_filter_not P kept
      omega
    · have := List.length_filter_le (fun e => decide (now - e.timestamp ≤ ttl)) cache
      omega
  · intro ttl maxSize now cache e he
    simp only [cleanCacheWith] at he
    split_ifs at he with h
    · have h1 := (List.mem_filter.mp he).1
      have h2 := (List.mem_filter.mp h1).2
      simpa using h2
    · have h2 := (List.mem_filter.mp he).2
      simpa using h2
  · intro ttl maxSize now cache hnodup hcap
    exact cleanCacheWith_cap_exact ttl maxSize now cache hnodup hcap
  · intro google wiki now cache q n b hg hok hcached
    exact apiSearch_cached_only_fresh google wiki now cache q n b hg hok hcached

def dummySearchData : SearchData :=
  { query := "q", results := [], source := "s", totalResults := 0, timestamp := 0 }

def witnessCache : List CacheEntry :=
  [{ key := "a", timestamp := 1, data := dummySearchData },
   { key := "b", timestamp := 2, data := dummySearchData },
   { key := "c", timestamp := 3, data := dummySearchData }]

theorem C6_cache_witness :
    ((witnessCache.map CacheEntry.key).Nodup ∧
      1 < (witnessCache.filter (fun e => decide (5 - e.timestamp ≤ 10))).length) ∧
    ((cleanCacheWith 10 1 5 witnessCache).length = 1 ∧
      (∀ x ∈ witnessCache.filter (fun e => decide (5 - e.timestamp ≤ 10)),
        x ∉ cleanCacheWith 10 1 5 witnessCache →
        ∀ y ∈ cleanCacheWith 10 1 5 witnessCache, x.timestamp ≤ y.timestamp)) :=
  ⟨⟨by decide, by decide⟩,
    C6_cache_sweep_invariants.2.2.1 10 1 5 witnessCache (by decide) (by decide)⟩

/-! ## Claim C7: cache idempotence within the TTL -/

theorem apiSearch_empty_cache_stores (g : Option SearchData) (w : Option SearchResult)
    (t : Nat) (q : String) (n : Option Int) (hq : q ≠ "") :
    ∃ d, apiSearch g w t [] (some q) n =
      (.ok d, [{ key := jsToLower (jsSubstring (jsTrim q) MAX_QUERY_LENGTH) ++ "_" ++
                   toString (clampNumResults n),
                 timestamp := t, data := d }]) := by
  simp only [apiSearch, if_neg hq]
  cases g with
  | some gd => exact ⟨gd, rfl⟩
  | none => exact ⟨_, rfl⟩

theorem cleanCacheWith_singleton (ttl maxSize now : Nat) (e : CacheEntry)
    (h : now - e.timestamp ≤ ttl) (hmax : 0 < maxSize) :
    cleanCacheWith ttl maxSize now [e] = [e] := by
  have hf : List.filter (fun x => decide (now - x.timestamp ≤ ttl)) [e] = [e] := by
    simp only [List.filter_cons, List.filter_nil, decide_eq_true h, if_true]
  simp only [cleanCacheWith, hf]
  rw [if_neg (by simp only [List.length_singleton]; omega)]

theorem cacheGet_cons_self (e : CacheEntry) (rest : List CacheEntry) :
    cacheGet (e :: rest) e.key = some e := by
  simp [cacheGet, List.find?]

theorem apiSearch_second_hit (g2 : Option SearchData) (w2 : Option SearchResult)
    (t1 t2 : Nat) (d : SearchData) (q : String) (n : Option Int)
    (hq : q ≠ "") (hfresh : t2 - t1 < CACHE_TTL) :
    (apiSearch g2 w2 t2 [{ key := jsToLower (jsSubstring (jsTrim q) MAX_QUERY_LENGTH) ++ "_" ++
                             toString (clampNumResults n),
                           timestamp := t1, data := d }] (some q) n).1 =
      .ok { d with cached := true } := by
  set e : CacheEntry := { key := jsToLower (jsSubstring (jsTrim q) MAX_QUERY_LENGTH) ++ "_" ++ toString (clampNumResults n), timestamp := t1, data := d } with he
  have hle : t2 - e.timestamp ≤ CACHE_TTL := Nat.le_of_lt hfresh
  have hclean : cleanCache t2 [e] = [e] :=
    cleanCacheWith_singleton CACHE_TTL MAX_CACHE_SIZE t2 e hle (by decide)
  have hkeq : (jsToLower (jsSubstring (jsTrim q) MAX_QUERY_LENGTH) ++ "_" ++
      toString (clampNumResults n)) = e.key := rfl
  simp only [apiSearch, if_neg hq, hclean]
  rw [hkeq, cacheGet_cons_self]
  simp only [if_pos (show t2 - e.timestamp < CACHE_TTL from hfresh)]

/-- C7: issuing the same search twice within `CACHE_TTL` makes the second call
serve the stored body — identical `results` — with `cached:true`, no matter
how either call's live-search/Wikipedia oracles behave; and after the TTL has
elapsed a third identical call is not served with `cached:true` (concrete
run: `google_search("ibm", 3)` at t=0, then at t=CACHE_TTL). -/
theorem C7_cache_idempotence_within_ttl (g1 g2 : Option SearchData)
    (w1 w2 : Option SearchResult) (q : String) (n : Option Int) (t1 t2 : Nat)
    (hq : q ≠ "") (hfresh : t2 - t1 < CACHE_TTL) :
    (∃ b1 b2, (apiSearch g1 w1 t1 [] (some q) n).1 = .ok b1 ∧
      (apiSearch g2 w2 t2 (apiSearch g1 w1 t1 [] (some q) n).2 (some q) n).1 = .ok b2 ∧
      b2.results = b1.results ∧ b2.cached = true) ∧
    respIsCachedTrue (apiSearch none none 300000
      ((apiSearch none none 0 [] (some "ibm") (some 3)).2) (some "ibm") (some 3)).1 = false := by
  constructor
  · obtain ⟨d, hd⟩ := apiSearch_empty_cache_stores g1 w1 t1 q n hq
    refine ⟨d, { d with cached := true }, ?_, ?_, rfl, rfl⟩
    · rw [hd]
    · rw [hd]
      exact apiSearch_second_hit g2 w2 t1 t2 d q n hq hfresh
  · decide

theorem C7_cache_witness :
    ("ibm" ≠ "" ∧ (1000 : Nat) - 0 < CACHE_TTL) ∧
    (∃ b1 b2, (apiSearch none none 0 [] (some "ibm") (some 3)).1 = .ok b1 ∧
      (apiSearch none none 1000 ((apiSearch none none 0 [] (some "ibm") (some 3)).2)
        (some "ibm") (some 3)).1 = .ok b2 ∧
      b2.results = b1.results ∧ b2.cached = true) :=
  ⟨⟨by decide, by decide⟩,
    (C7_cache_idempotence_within_ttl none none none none "ibm" (some 3) 0 1000
      (by decide) (by decide)).1⟩

def runStubThrow : String → List String × List String × VmOutcome :=
  fun _ => ([], [], .thrown "Script execution timed out.")

theorem C8_execute_witness :
    ("1+1" ≠ "") ∧
    (execStatus (apiExecute runStubThrow 0 (some "1+1")) = 200 ∧
      is2xx (execStatus (apiExecute runStubThrow 0 (some "1+1"))) = true ∧
      (∀ logs errs msg, runStubThrow (jsSubstring "1+1" 10000) = (logs, errs, .thrown msg) →
        apiExecute runStubThrow 0 (some "1+1") =
          .ok { success := false, result := none, logs := [], errors := [msg],
                error := some (jsSubstring msg 1000), timestamp := 0 })) :=
  ⟨by decide, C8_execute_reports_failure_in_body runStubThrow 0 "1+1" (by decide)⟩
